import Mathlib

/-!
Verification of the policy evaluation engine of `dependency-review-cli`.

The definitions below are a shallow embedding of `src/review-engine.ts` and
`src/spdx.ts`.  The third-party SPDX libraries (`spdx-expression-parse`,
`spdx-satisfies`, `@onebeyond/spdx-license-satisfies`) are not part of the
repository; they are modelled as an abstract `SpdxLib` record of possibly
failing functions (`Except` models a thrown exception), and every theorem is
quantified over that record.  The scorecard enrichment performs network I/O
and does not feed into any flagged set or `hasIssues`; it is omitted from the
pure model of `analyze`.
-/

namespace DepReview

/-- Severity of a vulnerability: the four defined levels. -/
inductive Severity
  | low
  | moderate
  | high
  | critical
deriving DecidableEq, Repr

/-- The `severityOrder` table of `filterVulnerableChanges`
    (`low: 0, moderate: 1, high: 2, critical: 3`). -/
def severityOrder : Severity → Nat
  | .low => 0
  | .moderate => 1
  | .high => 2
  | .critical => 3

/-- Dependency scope classification. -/
inductive Scope
  | unknown
  | runtime
  | development
deriving DecidableEq, Repr

/-- A vulnerability record attached to a change (`Vulnerability` in `types.ts`). -/
structure Vulnerability where
  severity : Severity
  advisory_ghsa_id : String
  advisory_summary : String
  advisory_url : String
deriving DecidableEq, Repr

/-- Change kind of a dependency change. -/
inductive ChangeType
  | added
  | removed
deriving DecidableEq, Repr

/-- One dependency change (`DependencyChange` in `types.ts`).
    `license` and `scope` are nullable/optional in the source. -/
structure DependencyChange where
  change_type : ChangeType
  manifest : String
  ecosystem : String
  name : String
  version : String
  package_url : String
  license : Option String
  source_repository_url : Option String
  scope : Option Scope
  vulnerabilities : List Vulnerability
deriving DecidableEq, Repr

/-- The `licenses` field of `Config` (`allow?: string[]; deny?: string[]`). -/
structure LicensesConfig where
  allow : Option (List String)
  deny : Option (List String)
deriving DecidableEq, Repr

/-- The `packages` field of `Config` (`deny?: string[]`). -/
structure PackagesConfig where
  deny : Option (List String)
deriving DecidableEq, Repr

/-- The `groups` field of `Config` (`deny?: string[]`). -/
structure GroupsConfig where
  deny : Option (List String)
deriving DecidableEq, Repr

/-- The `ghsas` field of `Config` (`allow?: string[]`). -/
structure GhsasConfig where
  allow : Option (List String)
deriving DecidableEq, Repr

/-- The policy configuration (`Config` in `types.ts`). -/
structure Config where
  failOnSeverity : Severity
  failOnScopes : List Scope
  licenses : LicensesConfig
  packages : PackagesConfig
  groups : GroupsConfig
  ghsas : GhsasConfig
  licenseCheckExclusions : Option (List String)
  licenseCheck : Bool
  vulnerabilityCheck : Bool
  warnOnly : Bool
  showOpenSSFScorecard : Bool
  warnOnOpenSSFScorecardLevel : Nat
deriving DecidableEq, Repr

/-! ### The SPDX evaluator (`src/spdx.ts`)

The upstream npm libraries are abstract: `Except String` models functions
that may throw. -/

/-- Abstract behaviour of the third-party SPDX libraries used by `spdx.ts`:
`parseSpdx` is `spdx-expression-parse`, `satisfiesSpdx` is `spdx-satisfies`,
and `satisfiesAnySpdx`/`satisfiesAllSpdx` are from
`@onebeyond/spdx-license-satisfies`.  An `Except.error` models a thrown
exception. -/
structure SpdxLib where
  parseSpdx : String → Except String Unit
  satisfiesSpdx : String → String → Except String Bool
  satisfiesAnySpdx : String → List String → Except String Bool
  satisfiesAllSpdx : String → List String → Except String Bool

/-- A `\w` character of the JavaScript regex engine: `[A-Za-z0-9_]`. -/
def isWordChar (c : Char) : Bool :=
  (('a' ≤ c && c ≤ 'z') || ('A' ≤ c && c ≤ 'Z') || ('0' ≤ c && c ≤ '9') || c == '_')

/-- A character matched by the `[\w-]` classes of the lookbehind/lookahead in
    `cleanInvalidSPDX`'s regex. -/
def isWordOrHyphen (c : Char) : Bool :=
  isWordChar c || c == '-'

/-- The lookbehind `(?<![\w-])` of the `OTHER` regex: satisfied at the start
    of the string or after a non-`[\w-]` character. -/
def prevOk : Option Char → Bool
  | none => true
  | some p => !isWordOrHyphen p

/-- The lookahead `(?![\w-])` of the `OTHER` regex: satisfied at the end of
    the string or before a non-`[\w-]` character. -/
def nextOk : List Char → Bool
  | [] => true
  | d :: _ => !isWordOrHyphen d

/-- The replacement text of `cleanInvalidSPDX`. -/
def otherReplacement : List Char := "LicenseRef-clearlydefined-OTHER".data

/-- Character-level global replace of `/(?<![\w-])OTHER(?![\w-])/g` by
    `LicenseRef-clearlydefined-OTHER`, scanning left to right exactly as the
    JavaScript regex engine does (`prev` is the character of the original
    string just before the current position). -/
def cleanAux : Option Char → List Char → List Char
  | _, [] => []
  | prev, 'O' :: 'T' :: 'H' :: 'E' :: 'R' :: rest =>
    if prevOk prev && nextOk rest then
      otherReplacement ++ cleanAux (some 'R') rest
    else
      'O' :: cleanAux (some 'O') ('T' :: 'H' :: 'E' :: 'R' :: rest)
  | _, c :: rest => c :: cleanAux (some c) rest

/-- Model of `cleanInvalidSPDX` of `spdx.ts`: rewrite every standalone occurrence of
    the token `OTHER` to `LicenseRef-clearlydefined-OTHER`. -/
def cleanInvalidSPDX (spdxExpr : String) : String :=
  ⟨cleanAux none spdxExpr.data⟩

/-- Model of `isValid` of `spdx.ts`: `true` iff `spdx-expression-parse` succeeds;
    a thrown parse error yields `false`. -/
def isValid (lib : SpdxLib) (candidateExpr : String) : Bool :=
  match lib.parseSpdx candidateExpr with
  | .ok _ => true
  | .error _ => false

/-- Model of `satisfies` of `spdx.ts`: clean the candidate, delegate to
    `spdx-satisfies`, and swallow any thrown error as `false`. -/
def satisfies (lib : SpdxLib) (candidateExpr range : String) : Bool :=
  match lib.satisfiesSpdx (cleanInvalidSPDX candidateExpr) range with
  | .ok b => b
  | .error _ => false

/-- Model of `satisfiesAny` of `spdx.ts`: clean the candidate, delegate to
    `spdx-license-satisfies`, and swallow any thrown error as `false`. -/
def satisfiesAny (lib : SpdxLib) (candidateExpr : String) (licenses : List String) : Bool :=
  match lib.satisfiesAnySpdx (cleanInvalidSPDX candidateExpr) licenses with
  | .ok b => b
  | .error _ => false

/-- Model of `satisfiesAll` of `spdx.ts`: clean the candidate, delegate to
    `spdx-license-satisfies`, and swallow any thrown error as `false`. -/
def satisfiesAll (lib : SpdxLib) (candidateExpr : String) (licenses : List String) : Bool :=
  match lib.satisfiesAllSpdx (cleanInvalidSPDX candidateExpr) licenses with
  | .ok b => b
  | .error _ => false

/-! ### The review engine (`src/review-engine.ts`) -/

/-- The guard `change.scope && !this.config.failOnScopes.includes(change.scope)`
    of `filterVulnerableChanges` (an absent scope is falsy, so the guard can
    only fire when a scope is present). -/
def scopeExcluded (cfg : Config) (scope : Option Scope) : Bool :=
  match scope with
  | some s => !(cfg.failOnScopes.contains s)
  | none => false

/-- The guard `this.config.ghsas?.allow?.includes(vuln.advisory_ghsa_id)` of
    `filterVulnerableChanges` (optional chaining: an absent list is falsy). -/
def ghsaAllowed (cfg : Config) (ghsaId : String) : Bool :=
  match cfg.ghsas.allow with
  | some l => l.contains ghsaId
  | none => false

/-- Model of `ReviewEngine.filterVulnerableChanges`. -/
def filterVulnerableChanges (cfg : Config) (changes : List DependencyChange) :
    List DependencyChange :=
  let minSeverityLevel := severityOrder cfg.failOnSeverity
  changes.filter fun change =>
    if change.change_type != .added then
      false
    else if scopeExcluded cfg change.scope then
      false
    else
      change.vulnerabilities.any fun vuln =>
        if ghsaAllowed cfg vuln.advisory_ghsa_id then
          false
        else
          decide (severityOrder vuln.severity ≥ minSeverityLevel)

/-- JavaScript `String.prototype.includes`: contiguous substring test. -/
def strIncludes (s sub : String) : Bool :=
  decide (sub.data <:+: s.data)

/-- JavaScript `String.prototype.startsWith`. -/
def strStartsWith (s pre : String) : Bool :=
  pre.data.isPrefixOf s.data

/-- JavaScript `String.prototype.endsWith`. -/
def strEndsWith (s suf : String) : Bool :=
  suf.data.isSuffixOf s.data

/-- The characters before the first `@`, or all of them if there is none. -/
def takeUntilAt : List Char → List Char
  | [] => []
  | c :: rest => if c = '@' then [] else c :: takeUntilAt rest

/-- JavaScript `packageUrl.split("@")[0]`: the part of the string before its
    first `@` (the whole string when no `@` occurs). -/
def strBeforeFirstAt (s : String) : String :=
  ⟨takeUntilAt s.data⟩

/-- Model of `ReviewEngine.isPackageInLicenseExclusions`. -/
def isPackageInLicenseExclusions (cfg : Config) (packageUrl : String) : Bool :=
  match cfg.licenseCheckExclusions with
  | none => false
  | some exclusions =>
    exclusions.any fun excludedPackage =>
      (packageUrl == excludedPackage || strStartsWith packageUrl excludedPackage)
      ||
      (let pkgWithoutVersion := strBeforeFirstAt packageUrl
       pkgWithoutVersion == excludedPackage
       || (strEndsWith excludedPackage "/"
           && strStartsWith pkgWithoutVersion excludedPackage))

/-- The three output buckets of `filterInvalidLicenses`. -/
structure LicenseBuckets where
  forbidden : List DependencyChange
  unresolved : List DependencyChange
  unlicensed : List DependencyChange
deriving DecidableEq, Repr

/-- The guard `this.config.licenses?.allow && this.config.licenses.allow.length > 0`
    of `filterInvalidLicenses` (and its `deny` counterpart): the optional list
    is present and non-empty. -/
def hasNonEmptyList : Option (List String) → Bool
  | some l => decide (l.length > 0)
  | none => false

/-- JavaScript falsiness of the nullable `change.license` string: the guard
    `!change.license` fires on `null` and on the empty string. -/
def licenseFalsy : Option String → Bool
  | none => true
  | some s => s == ""

/-- Outcome of one iteration of `filterInvalidLicenses`' loop for one change. -/
inductive LicenseClass
  | skipped
  | unlicensed
  | forbidden
  | unresolved
  | passed
deriving DecidableEq, Repr

/-- The body of `filterInvalidLicenses`' loop for one change, following the
    source order: `change_type` guard, `!change.license` guard (JS falsiness:
    it fires on `null` and on the empty string, here the `none` arm plus the
    `license == ""` test), exclusion guard, `NOASSERTION` guard, then the
    allow / deny branches.  The source's `try/catch` is not modelled because
    every call inside the `try` block is total (`spdx.ts` swallows all
    library errors itself). -/
def classifyLicense (lib : SpdxLib) (cfg : Config) (change : DependencyChange) :
    LicenseClass :=
  if change.change_type != .added then .skipped
  else
    match change.license with
    | none => .unlicensed
    | some license =>
      if license == "" then
        .unlicensed
      else if cfg.licenseCheckExclusions.isSome
          && isPackageInLicenseExclusions cfg change.package_url then
        .skipped
      else if license == "NOASSERTION" then
        .unlicensed
      else if hasNonEmptyList cfg.licenses.allow then
        let allow := cfg.licenses.allow.getD []
        if isValid lib license then
          if satisfies lib license (String.intercalate " OR " allow) then .passed
          else .forbidden
        else .unresolved
      else if hasNonEmptyList cfg.licenses.deny then
        let deny := cfg.licenses.deny.getD []
        if isValid lib license then
          if satisfiesAny lib license deny then .forbidden
          else .passed
        else .unresolved
      else .passed

/-- Model of `ReviewEngine.filterInvalidLicenses`: partition the added changes into the
    three license buckets, preserving input order. -/
def filterInvalidLicenses (lib : SpdxLib) (cfg : Config) :
    List DependencyChange → LicenseBuckets
  | [] => { forbidden := [], unresolved := [], unlicensed := [] }
  | change :: rest =>
    let r := filterInvalidLicenses lib cfg rest
    match classifyLicense lib cfg change with
    | .forbidden => { r with forbidden := change :: r.forbidden }
    | .unresolved => { r with unresolved := change :: r.unresolved }
    | .unlicensed => { r with unlicensed := change :: r.unlicensed }
    | .skipped => r
    | .passed => r

/-- Whether an optional deny list is absent or empty (the short-circuit test
    of `filterDeniedPackages`). -/
def denyListEmpty : Option (List String) → Bool
  | none => true
  | some l => l.isEmpty

/-- The `packages.deny` loop body of `filterDeniedPackages`: some configured
    denied-package string occurs as a substring of the package URL (an absent
    list is guarded by `this.config.packages?.deny`). -/
def matchesDeniedPackage (cfg : Config) (url : String) : Bool :=
  match cfg.packages.deny with
  | some l => l.any fun deniedPackage => strIncludes url deniedPackage
  | none => false

/-- The `groups.deny` loop body of `filterDeniedPackages`: the package URL
    starts with some configured denied-group prefix. -/
def matchesDeniedGroup (cfg : Config) (url : String) : Bool :=
  match cfg.groups.deny with
  | some l => l.any fun deniedGroup => strStartsWith url deniedGroup
  | none => false

/-- Model of `ReviewEngine.filterDeniedPackages`. -/
def filterDeniedPackages (cfg : Config) (changes : List DependencyChange) :
    List DependencyChange :=
  if denyListEmpty cfg.packages.deny && denyListEmpty cfg.groups.deny then
    []
  else
    changes.filter fun change =>
      if change.change_type != .added then false
      else
        matchesDeniedPackage cfg change.package_url
        || matchesDeniedGroup cfg change.package_url

/-- Model of `ReviewEngine.determineHasIssues`. -/
def determineHasIssues (cfg : Config) (vulnerableChanges : List DependencyChange)
    (invalidLicenseChanges : LicenseBuckets)
    (deniedChanges : List DependencyChange) : Bool :=
  if cfg.warnOnly then
    false
  else
    decide (vulnerableChanges.length > 0)
    || decide (invalidLicenseChanges.forbidden.length > 0)
    || decide (invalidLicenseChanges.unresolved.length > 0)
    || decide (deniedChanges.length > 0)

/-- The aggregate summary of `ReviewEngine.generateSummary`. -/
structure Summary where
  totalChanges : Nat
  added : Nat
  removed : Nat
  vulnerabilities : Nat
  criticalVulns : Nat
  highVulns : Nat
  moderateVulns : Nat
  lowVulns : Nat
deriving DecidableEq, Repr

/-- Number of vulnerabilities of severity `s` carried by the flagged changes
    (each flagged change contributes all of its vulnerabilities). -/
def countVulnsOfSeverity (s : Severity) (changes : List DependencyChange) : Nat :=
  ((changes.map DependencyChange.vulnerabilities).flatten).countP fun v => v.severity == s

/-- Model of `ReviewEngine.generateSummary`. -/
def generateSummary (allChanges vulnerableChanges : List DependencyChange) : Summary :=
  { totalChanges := allChanges.length
    added := (allChanges.filter fun c => c.change_type == .added).length
    removed := (allChanges.filter fun c => c.change_type == .removed).length
    vulnerabilities := ((vulnerableChanges.map DependencyChange.vulnerabilities).flatten).length
    criticalVulns := countVulnsOfSeverity .critical vulnerableChanges
    highVulns := countVulnsOfSeverity .high vulnerableChanges
    moderateVulns := countVulnsOfSeverity .moderate vulnerableChanges
    lowVulns := countVulnsOfSeverity .low vulnerableChanges }

/-- The verdict structure of `ReviewEngine.analyze` (`ReviewResults` without
    the network-backed scorecard enrichment, which feeds into no flagged set
    and not into `hasIssues`). -/
structure ReviewResults where
  vulnerableChanges : List DependencyChange
  invalidLicenseChanges : LicenseBuckets
  deniedChanges : List DependencyChange
  hasIssues : Bool
  summary : Summary
deriving DecidableEq, Repr

/-- Model of `ReviewEngine.analyze`, restricted to its pure policy-evaluation part. -/
def analyze (lib : SpdxLib) (cfg : Config) (changes : List DependencyChange) :
    ReviewResults :=
  let vulnerableChanges :=
    if cfg.vulnerabilityCheck then filterVulnerableChanges cfg changes else []
  let invalidLicenseChanges :=
    if cfg.licenseCheck then filterInvalidLicenses lib cfg changes
    else { forbidden := [], unresolved := [], unlicensed := [] }
  let deniedChanges := filterDeniedPackages cfg changes
  { vulnerableChanges := vulnerableChanges
    invalidLicenseChanges := invalidLicenseChanges
    deniedChanges := deniedChanges
    hasIssues := determineHasIssues cfg vulnerableChanges invalidLicenseChanges deniedChanges
    summary := generateSummary changes vulnerableChanges }

/-! ### Stub SPDX libraries and sample data for concrete evaluations -/

/-- A stub SPDX library: parsing always succeeds and every satisfaction query
    reports `b`. -/
def constLib (b : Bool) : SpdxLib :=
  { parseSpdx := fun _ => .ok ()
    satisfiesSpdx := fun _ _ => .ok b
    satisfiesAnySpdx := fun _ _ => .ok b
    satisfiesAllSpdx := fun _ _ => .ok b }

/-- A stub SPDX library whose every operation throws. -/
def failLib : SpdxLib :=
  { parseSpdx := fun _ => .error "parse error"
    satisfiesSpdx := fun _ _ => .error "boom"
    satisfiesAnySpdx := fun _ _ => .error "boom"
    satisfiesAllSpdx := fun _ _ => .error "boom" }

/-- A sample dependency change mirroring the repository's test fixture. -/
def sampleChange : DependencyChange :=
  { change_type := .added
    manifest := "package.json"
    ecosystem := "npm"
    name := "test-package"
    version := "1.0.0"
    package_url := "pkg:npm/test-package@1.0.0"
    license := some "MIT"
    source_repository_url := none
    scope := some .runtime
    vulnerabilities := [] }

/-- A sample vulnerability record. -/
def sampleVuln : Vulnerability :=
  { severity := .high
    advisory_ghsa_id := "GHSA-1234-5678-9012"
    advisory_summary := "Test vulnerability"
    advisory_url := "https://example.com/GHSA-1234-5678-9012" }

/-- A sample configuration mirroring the repository's test fixture. -/
def sampleConfig : Config :=
  { failOnSeverity := .low
    failOnScopes := [.runtime]
    licenses := { allow := none, deny := none }
    packages := { deny := some [] }
    groups := { deny := some [] }
    ghsas := { allow := some [] }
    licenseCheckExclusions := none
    licenseCheck := true
    vulnerabilityCheck := true
    warnOnly := false
    showOpenSSFScorecard := false
    warnOnOpenSSFScorecardLevel := 3 }

/-! ### Helper lemmas -/

/-- Membership in the `forbidden` bucket is per-change classification. -/
theorem mem_forbidden_iff (lib : SpdxLib) (cfg : Config)
    (changes : List DependencyChange) (c : DependencyChange) :
    c ∈ (filterInvalidLicenses lib cfg changes).forbidden ↔
      c ∈ changes ∧ classifyLicense lib cfg c = .forbidden := by
  induction changes with
  | nil => simp [filterInvalidLicenses]
  | cons hd tl ih =>
    by_cases hc : c = hd
    · subst hc
      cases h : classifyLicense lib cfg c <;>
        simp [filterInvalidLicenses, h, ih]
    · cases h : classifyLicense lib cfg hd <;>
        simp [filterInvalidLicenses, h, ih, hc]

/-- Membership in the `unresolved` bucket is per-change classification. -/
theorem mem_unresolved_iff (lib : SpdxLib) (cfg : Config)
    (changes : List DependencyChange) (c : DependencyChange) :
    c ∈ (filterInvalidLicenses lib cfg changes).unresolved ↔
      c ∈ changes ∧ classifyLicense lib cfg c = .unresolved := by
  induction changes with
  | nil => simp [filterInvalidLicenses]
  | cons hd tl ih =>
    by_cases hc : c = hd
    · subst hc
      cases h : classifyLicense lib cfg c <;>
        simp [filterInvalidLicenses, h, ih]
    · cases h : classifyLicense lib cfg hd <;>
        simp [filterInvalidLicenses, h, ih, hc]

/-- Membership in the `unlicensed` bucket is per-change classification. -/
theorem mem_unlicensed_iff (lib : SpdxLib) (cfg : Config)
    (changes : List DependencyChange) (c : DependencyChange) :
    c ∈ (filterInvalidLicenses lib cfg changes).unlicensed ↔
      c ∈ changes ∧ classifyLicense lib cfg c = .unlicensed := by
  induction changes with
  | nil => simp [filterInvalidLicenses]
  | cons hd tl ih =>
    by_cases hc : c = hd
    · subst hc
      cases h : classifyLicense lib cfg c <;>
        simp [filterInvalidLicenses, h, ih]
    · cases h : classifyLicense lib cfg hd <;>
        simp [filterInvalidLicenses, h, ih, hc]

/-- Lemma: `determineHasIssues` unfolded into a propositional characterization. -/
theorem determineHasIssues_iff (cfg : Config) (v : List DependencyChange)
    (b : LicenseBuckets) (d : List DependencyChange) :
    determineHasIssues cfg v b d = true ↔
      cfg.warnOnly = false ∧
        (v ≠ [] ∨ b.forbidden ≠ [] ∨ b.unresolved ≠ [] ∨ d ≠ []) := by
  unfold determineHasIssues
  cases h : cfg.warnOnly <;>
    simp [h, List.length_pos, or_assoc]

/-- The vulnerability-flagged set computed by `analyze`. -/
theorem analyze_vulnerableChanges (lib : SpdxLib) (cfg : Config)
    (changes : List DependencyChange) :
    (analyze lib cfg changes).vulnerableChanges =
      if cfg.vulnerabilityCheck then filterVulnerableChanges cfg changes else [] := rfl

/-- The license buckets computed by `analyze`. -/
theorem analyze_invalidLicenseChanges (lib : SpdxLib) (cfg : Config)
    (changes : List DependencyChange) :
    (analyze lib cfg changes).invalidLicenseChanges =
      if cfg.licenseCheck then filterInvalidLicenses lib cfg changes
      else { forbidden := [], unresolved := [], unlicensed := [] } := rfl

/-- The denied set computed by `analyze`. -/
theorem analyze_deniedChanges (lib : SpdxLib) (cfg : Config)
    (changes : List DependencyChange) :
    (analyze lib cfg changes).deniedChanges = filterDeniedPackages cfg changes := rfl

/-- A non-added change is skipped by the license loop. -/
theorem classify_not_added (lib : SpdxLib) (cfg : Config) (c : DependencyChange)
    (h : c.change_type = .removed) :
    classifyLicense lib cfg c = .skipped := by
  simp [classifyLicense, h]

/-- The scope guard does not fire exactly when the scope is absent or allowed. -/
theorem scopeExcluded_false_iff (cfg : Config) (sc : Option Scope) :
    scopeExcluded cfg sc = false ↔
      (sc = none ∨ ∃ s, sc = some s ∧ s ∈ cfg.failOnScopes) := by
  cases sc <;> simp [scopeExcluded]

/-- The advisory exemption guard does not fire exactly when the advisory ID is
    in no configured allow list. -/
theorem ghsaAllowed_false_iff (cfg : Config) (ghsaId : String) :
    ghsaAllowed cfg ghsaId = false ↔
      ∀ l, cfg.ghsas.allow = some l → ghsaId ∉ l := by
  unfold ghsaAllowed
  cases h : cfg.ghsas.allow <;> simp

/-- The per-vulnerability qualification test of `filterVulnerableChanges`. -/
theorem vuln_qualifies_iff (cfg : Config) (v : Vulnerability) :
    (if ghsaAllowed cfg v.advisory_ghsa_id then false
     else decide (severityOrder v.severity ≥ severityOrder cfg.failOnSeverity)) = true ↔
      ((∀ l, cfg.ghsas.allow = some l → v.advisory_ghsa_id ∉ l) ∧
        severityOrder cfg.failOnSeverity ≤ severityOrder v.severity) := by
  cases hg : ghsaAllowed cfg v.advisory_ghsa_id
  · rw [if_neg (by simp)]
    rw [decide_eq_true_iff, ge_iff_le]
    have hall := (ghsaAllowed_false_iff cfg _).mp hg
    exact ⟨fun hle => ⟨hall, hle⟩, fun hh => hh.2⟩
  · rw [if_pos rfl]
    simp only [Bool.false_eq_true, false_iff, not_and]
    intro hall
    have hfalse := (ghsaAllowed_false_iff cfg v.advisory_ghsa_id).mpr hall
    rw [hg] at hfalse
    simp at hfalse

/-- Lemma: `matchesDeniedPackage` unfolded into a propositional characterization. -/
theorem matchesDeniedPackage_iff (cfg : Config) (url : String) :
    matchesDeniedPackage cfg url = true ↔
      ∃ l, cfg.packages.deny = some l ∧ ∃ p ∈ l, strIncludes url p = true := by
  unfold matchesDeniedPackage
  cases h : cfg.packages.deny <;> simp [List.any_eq_true]

/-- Lemma: `matchesDeniedGroup` unfolded into a propositional characterization. -/
theorem matchesDeniedGroup_iff (cfg : Config) (url : String) :
    matchesDeniedGroup cfg url = true ↔
      ∃ l, cfg.groups.deny = some l ∧ ∃ g ∈ l, strStartsWith url g = true := by
  unfold matchesDeniedGroup
  cases h : cfg.groups.deny <;> simp [List.any_eq_true]

/-- An absent-or-empty `packages.deny` list matches no URL. -/
theorem matchesDeniedPackage_of_empty (cfg : Config) (url : String)
    (h : denyListEmpty cfg.packages.deny = true) :
    matchesDeniedPackage cfg url = false := by
  unfold matchesDeniedPackage
  unfold denyListEmpty at h
  cases ho : cfg.packages.deny with
  | none => rfl
  | some l =>
    rw [ho] at h
    rw [List.isEmpty_iff] at h
    simp [h]

/-- An absent-or-empty `groups.deny` list matches no URL. -/
theorem matchesDeniedGroup_of_empty (cfg : Config) (url : String)
    (h : denyListEmpty cfg.groups.deny = true) :
    matchesDeniedGroup cfg url = false := by
  unfold matchesDeniedGroup
  unfold denyListEmpty at h
  cases ho : cfg.groups.deny with
  | none => rfl
  | some l =>
    rw [ho] at h
    rw [List.isEmpty_iff] at h
    simp [h]

/-- Membership in `filterDeniedPackages`, covering the short-circuit branch. -/
theorem mem_filterDeniedPackages_iff (cfg : Config) (changes : List DependencyChange)
    (c : DependencyChange) :
    c ∈ filterDeniedPackages cfg changes ↔
      c ∈ changes ∧ c.change_type = .added ∧
        (matchesDeniedPackage cfg c.package_url = true ∨
         matchesDeniedGroup cfg c.package_url = true) := by
  unfold filterDeniedPackages
  split
  next hcond =>
    rw [Bool.and_eq_true] at hcond
    simp only [List.not_mem_nil, false_iff, not_and]
    intro _ _ hm
    rcases hm with hm | hm
    · rw [matchesDeniedPackage_of_empty cfg _ hcond.1] at hm
      exact absurd hm (by simp)
    · rw [matchesDeniedGroup_of_empty cfg _ hcond.2] at hm
      exact absurd hm (by simp)
  next =>
    rw [List.mem_filter]
    cases hct : c.change_type <;> simp [hct]

/-- The vulnerability filter is antitone in the severity threshold. -/
theorem filterVulnerable_subset (cfg : Config) (s2 : Severity)
    (changes : List DependencyChange)
    (h : severityOrder cfg.failOnSeverity ≤ severityOrder s2) :
    filterVulnerableChanges { cfg with failOnSeverity := s2 } changes ⊆
      filterVulnerableChanges cfg changes := by
  intro c hc
  have hsc : scopeExcluded { cfg with failOnSeverity := s2 } = scopeExcluded cfg := rfl
  have hga : ghsaAllowed { cfg with failOnSeverity := s2 } = ghsaAllowed cfg := rfl
  simp only [filterVulnerableChanges, List.mem_filter, hsc, hga] at hc ⊢
  refine ⟨hc.1, ?_⟩
  have hp := hc.2
  by_cases h1 : (c.change_type != ChangeType.added) = true
  · rw [if_pos h1] at hp
    exact absurd hp (by simp)
  · rw [if_neg h1] at hp ⊢
    by_cases h2 : scopeExcluded cfg c.scope = true
    · rw [if_pos h2] at hp
      exact absurd hp (by simp)
    · rw [if_neg h2] at hp ⊢
      rw [List.any_eq_true] at hp ⊢
      obtain ⟨v, hv, hq⟩ := hp
      refine ⟨v, hv, ?_⟩
      by_cases h3 : ghsaAllowed cfg v.advisory_ghsa_id = true
      · rw [if_pos h3] at hq
        exact absurd hq (by simp)
      · rw [if_neg h3] at hq ⊢
        rw [decide_eq_true_iff] at hq ⊢
        omega

/-- A present non-empty list passes the `hasNonEmptyList` guard. -/
theorem hasNonEmptyList_some (l : List String) (h : l ≠ []) :
    hasNonEmptyList (some l) = true := by
  cases l with
  | nil => exact absurd rfl h
  | cons a t => simp [hasNonEmptyList]

/-- A change whose license is absent is classified unlicensed (the
    absent-license check precedes the exclusion check in the source). -/
theorem classify_no_license (lib : SpdxLib) (cfg : Config) (c : DependencyChange)
    (hadd : c.change_type = .added) (h : c.license = none) :
    classifyLicense lib cfg c = .unlicensed := by
  unfold classifyLicense
  rw [hadd, h]
  simp

/-- A change whose license is JS-falsy (absent or the empty string) is
    classified unlicensed (this check precedes the exclusion check in the
    source). -/
theorem classify_falsy_license (lib : SpdxLib) (cfg : Config) (c : DependencyChange)
    (hadd : c.change_type = .added) (h : licenseFalsy c.license = true) :
    classifyLicense lib cfg c = .unlicensed := by
  unfold classifyLicense
  rw [hadd]
  rw [if_neg (by simp)]
  cases hl : c.license with
  | none => rfl
  | some s =>
    rw [hl] at h
    have hs : (s == "") = true := by simpa [licenseFalsy] using h
    simp [hs]

/-- An added change with a present, non-empty license matching a configured
    exclusion is skipped. -/
theorem classify_excluded (lib : SpdxLib) (cfg : Config) (c : DependencyChange)
    (lic : String) (hlic : c.license = some lic) (hemp : (lic == "") = false)
    (hex : (cfg.licenseCheckExclusions.isSome
        && isPackageInLicenseExclusions cfg c.package_url) = true) :
    classifyLicense lib cfg c = .skipped := by
  unfold classifyLicense
  by_cases h0 : (c.change_type != ChangeType.added) = true
  · rw [if_pos h0]
  · rw [if_neg h0, hlic]
    simp [hemp, hex]

/-- An added, non-excluded change with the `NOASSERTION` sentinel is
    classified unlicensed. -/
theorem classify_noassertion (lib : SpdxLib) (cfg : Config) (c : DependencyChange)
    (hadd : c.change_type = .added) (hlic : c.license = some "NOASSERTION")
    (hnex : (cfg.licenseCheckExclusions.isSome
        && isPackageInLicenseExclusions cfg c.package_url) = false) :
    classifyLicense lib cfg c = .unlicensed := by
  unfold classifyLicense
  rw [hadd, hlic]
  simp [hnex]

/-- The classification of an added, non-excluded change carrying a present
    license other than `NOASSERTION`, reduced to the allow/deny branches. -/
theorem classify_licensed (lib : SpdxLib) (cfg : Config) (c : DependencyChange)
    (lic : String) (hadd : c.change_type = .added) (hlic : c.license = some lic)
    (hemp : (lic == "") = false) (hno : (lic == "NOASSERTION") = false)
    (hnex : (cfg.licenseCheckExclusions.isSome
        && isPackageInLicenseExclusions cfg c.package_url) = false) :
    classifyLicense lib cfg c =
      if hasNonEmptyList cfg.licenses.allow then
        (if isValid lib lic then
           (if satisfies lib lic (String.intercalate " OR " (cfg.licenses.allow.getD []))
            then LicenseClass.passed else LicenseClass.forbidden)
         else LicenseClass.unresolved)
      else if hasNonEmptyList cfg.licenses.deny then
        (if isValid lib lic then
           (if satisfiesAny lib lic (cfg.licenses.deny.getD [])
            then LicenseClass.forbidden else LicenseClass.passed)
         else LicenseClass.unresolved)
      else LicenseClass.passed := by
  unfold classifyLicense
  rw [hadd, hlic]
  simp [hemp, hnex, hno]

/-! ### Claims -/

/-- C1: for every change list and config, the verdict's `hasIssues` flag is
true iff warn-only is false and at least one of the four sets
{vulnerability-flagged, forbidden-license, unresolved-license, denied} is
non-empty.  In particular a non-empty `unlicensed` set alone never makes
`hasIssues` true (it does not occur in the disjunction), and whenever
warn-only is true `hasIssues` is false even when every flagged category is
non-empty. -/
theorem hasIssues_characterization (lib : SpdxLib) (cfg : Config)
    (changes : List DependencyChange) :
    (analyze lib cfg changes).hasIssues = true ↔
      cfg.warnOnly = false ∧
        ((analyze lib cfg changes).vulnerableChanges ≠ [] ∨
         (analyze lib cfg changes).invalidLicenseChanges.forbidden ≠ [] ∨
         (analyze lib cfg changes).invalidLicenseChanges.unresolved ≠ [] ∨
         (analyze lib cfg changes).deniedChanges ≠ []) :=
  determineHasIssues_iff cfg _ _ _

/-- C5: a change whose change kind is `removed` appears in none of the
verdict's flagged outputs: not in the vulnerability-flagged set, not in any
of the three license buckets, and not in the denied set, regardless of the
configuration. -/
theorem removed_never_flagged (lib : SpdxLib) (cfg : Config)
    (changes : List DependencyChange) (c : DependencyChange)
    (hrem : c.change_type = .removed) :
    c ∉ (analyze lib cfg changes).vulnerableChanges ∧
    c ∉ (analyze lib cfg changes).invalidLicenseChanges.forbidden ∧
    c ∉ (analyze lib cfg changes).invalidLicenseChanges.unresolved ∧
    c ∉ (analyze lib cfg changes).invalidLicenseChanges.unlicensed ∧
    c ∉ (analyze lib cfg changes).deniedChanges := by
  have hskip := classify_not_added lib cfg c hrem
  refine ⟨?_, ?_, ?_, ?_, ?_⟩
  · rw [analyze_vulnerableChanges]
    cases hv : cfg.vulnerabilityCheck
    · simp
    · intro hmem
      rw [if_pos rfl] at hmem
      simp only [filterVulnerableChanges, List.mem_filter] at hmem
      simp [hrem] at hmem
  · rw [analyze_invalidLicenseChanges]
    cases hl : cfg.licenseCheck
    · simp
    · rw [if_pos rfl]
      intro hmem
      rw [mem_forbidden_iff] at hmem
      rw [hskip] at hmem
      exact absurd hmem.2 (by simp)
  · rw [analyze_invalidLicenseChanges]
    cases hl : cfg.licenseCheck
    · simp
    · rw [if_pos rfl]
      intro hmem
      rw [mem_unresolved_iff] at hmem
      rw [hskip] at hmem
      exact absurd hmem.2 (by simp)
  · rw [analyze_invalidLicenseChanges]
    cases hl : cfg.licenseCheck
    · simp
    · rw [if_pos rfl]
      intro hmem
      rw [mem_unlicensed_iff] at hmem
      rw [hskip] at hmem
      exact absurd hmem.2 (by simp)
  · rw [analyze_deniedChanges]
    unfold filterDeniedPackages
    split
    · simp
    · intro hmem
      rw [List.mem_filter] at hmem
      simp [hrem] at hmem

/-- Witness for C5: a concrete removed change is flagged nowhere. -/
theorem removed_never_flagged_witness :
    ({ sampleChange with change_type := .removed } : DependencyChange).change_type
        = .removed ∧
    { sampleChange with change_type := .removed } ∉
      (analyze (constLib true) sampleConfig
        [{ sampleChange with change_type := .removed }]).vulnerableChanges :=
  ⟨rfl, (removed_never_flagged (constLib true) sampleConfig
    [{ sampleChange with change_type := .removed }]
    { sampleChange with change_type := .removed } rfl).1⟩

/-- C10: with license checking enabled but neither a non-empty allow-list nor
a non-empty deny-list configured, the `forbidden` and `unresolved` buckets
are always empty — every added, non-exempt change carrying a present,
non-`NOASSERTION` license passes unflagged, even when the license is not a
valid SPDX expression. -/
theorem no_license_lists_no_flags (lib : SpdxLib) (cfg : Config)
    (changes : List DependencyChange)
    (hlc : cfg.licenseCheck = true)
    (hallow : cfg.licenses.allow = none ∨ cfg.licenses.allow = some [])
    (hdeny : cfg.licenses.deny = none ∨ cfg.licenses.deny = some []) :
    (analyze lib cfg changes).invalidLicenseChanges.forbidden = [] ∧
    (analyze lib cfg changes).invalidLicenseChanges.unresolved = [] := by
  have hA : hasNonEmptyList cfg.licenses.allow = false := by
    rcases hallow with h | h <;> rw [h] <;> rfl
  have hD : hasNonEmptyList cfg.licenses.deny = false := by
    rcases hdeny with h | h <;> rw [h] <;> rfl
  have hclass : ∀ ch, classifyLicense lib cfg ch ≠ .forbidden ∧
      classifyLicense lib cfg ch ≠ .unresolved := by
    intro ch
    unfold classifyLicense
    rw [hA, hD]
    constructor <;> (repeat' split) <;> simp_all
  constructor
  · rw [analyze_invalidLicenseChanges, hlc, if_pos rfl]
    rw [List.eq_nil_iff_forall_not_mem]
    intro c hmem
    rw [mem_forbidden_iff] at hmem
    exact (hclass c).1 hmem.2
  · rw [analyze_invalidLicenseChanges, hlc, if_pos rfl]
    rw [List.eq_nil_iff_forall_not_mem]
    intro c hmem
    rw [mem_unresolved_iff] at hmem
    exact (hclass c).2 hmem.2

/-- Witness for C10: with the sample config (no allow list, no deny list) and
an added change carrying an unparseable license, both buckets are empty. -/
theorem no_license_lists_no_flags_witness :
    sampleConfig.licenseCheck = true ∧
    (analyze failLib sampleConfig
      [{ sampleChange with license := some "not a license" }]).invalidLicenseChanges.forbidden
        = [] ∧
    (analyze failLib sampleConfig
      [{ sampleChange with license := some "not a license" }]).invalidLicenseChanges.unresolved
        = [] :=
  ⟨rfl,
    (no_license_lists_no_flags failLib sampleConfig
      [{ sampleChange with license := some "not a license" }] rfl
      (Or.inl rfl) (Or.inl rfl)).1,
    (no_license_lists_no_flags failLib sampleConfig
      [{ sampleChange with license := some "not a license" }] rfl
      (Or.inl rfl) (Or.inl rfl)).2⟩

/-- C2: with vulnerability checking enabled (the configured minimum severity
is always one of the four defined levels by construction), an added change is
in the vulnerability-flagged set iff its scope is absent or present-and-in
the configured scope set, and it has at least one vulnerability whose
advisory ID is in no configured exempted-advisory list and whose severity is
ordinally at least the configured minimum threshold. -/
theorem vulnerable_flag_iff (lib : SpdxLib) (cfg : Config)
    (changes : List DependencyChange) (c : DependencyChange)
    (hvc : cfg.vulnerabilityCheck = true)
    (hmem : c ∈ changes) (hadd : c.change_type = .added) :
    c ∈ (analyze lib cfg changes).vulnerableChanges ↔
      ((c.scope = none ∨ ∃ s, c.scope = some s ∧ s ∈ cfg.failOnScopes) ∧
       ∃ v ∈ c.vulnerabilities,
         (∀ l, cfg.ghsas.allow = some l → v.advisory_ghsa_id ∉ l) ∧
         severityOrder cfg.failOnSeverity ≤ severityOrder v.severity) := by
  rw [analyze_vulnerableChanges, hvc, if_pos rfl]
  simp only [filterVulnerableChanges, List.mem_filter]
  rw [iff_true_intro hmem, true_and]
  rw [hadd]
  rw [if_neg (by simp)]
  cases hs : scopeExcluded cfg c.scope
  · rw [if_neg (by simp)]
    rw [List.any_eq_true]
    have hscope := (scopeExcluded_false_iff cfg c.scope).mp hs
    rw [iff_true_intro hscope, true_and]
    constructor
    · rintro ⟨v, hv, hq⟩
      exact ⟨v, hv, (vuln_qualifies_iff cfg v).mp hq⟩
    · rintro ⟨v, hv, hq⟩
      exact ⟨v, hv, (vuln_qualifies_iff cfg v).mpr hq⟩
  · rw [if_pos rfl]
    simp only [Bool.false_eq_true, false_iff, not_and]
    intro hscope
    have hfalse := (scopeExcluded_false_iff cfg c.scope).mpr hscope
    rw [hs] at hfalse
    simp at hfalse

/-- Witness for C2: a change with one high-severity vulnerability is flagged
under the sample config (threshold `low`, no exemptions). -/
theorem vulnerable_flag_iff_witness :
    sampleConfig.vulnerabilityCheck = true ∧
    { sampleChange with vulnerabilities := [sampleVuln] } ∈
      (analyze (constLib true) sampleConfig
        [{ sampleChange with vulnerabilities := [sampleVuln] }]).vulnerableChanges :=
  ⟨rfl,
    (vulnerable_flag_iff (constLib true) sampleConfig
      [{ sampleChange with vulnerabilities := [sampleVuln] }]
      { sampleChange with vulnerabilities := [sampleVuln] }
      rfl (by simp) rfl).mpr
      (by
        refine ⟨Or.inr ⟨.runtime, rfl, by simp [sampleConfig]⟩,
          sampleVuln, by simp, ?_, by simp [sampleConfig, sampleVuln, severityOrder]⟩
        intro l hl
        simp [sampleConfig] at hl
        subst hl
        simp)⟩

/-- C4: independently of the license-check and vulnerability-check toggles, an
added change is in the denied set iff its package identifier contains some
configured denied-package substring or starts with some configured
denied-group prefix; when both denial lists are absent or empty the denied
set is empty outright (the source short-circuits before iterating). -/
theorem denied_iff (lib : SpdxLib) (cfg : Config) (changes : List DependencyChange)
    (c : DependencyChange) (hmem : c ∈ changes) (hadd : c.change_type = .added) :
    (c ∈ (analyze lib cfg changes).deniedChanges ↔
      ((∃ l, cfg.packages.deny = some l ∧ ∃ p ∈ l, strIncludes c.package_url p = true) ∨
       (∃ l, cfg.groups.deny = some l ∧ ∃ g ∈ l, strStartsWith c.package_url g = true))) ∧
    (denyListEmpty cfg.packages.deny = true → denyListEmpty cfg.groups.deny = true →
      (analyze lib cfg changes).deniedChanges = []) := by
  constructor
  · rw [analyze_deniedChanges, mem_filterDeniedPackages_iff]
    rw [iff_true_intro hmem, true_and, iff_true_intro hadd, true_and]
    rw [matchesDeniedPackage_iff, matchesDeniedGroup_iff]
  · intro hP hG
    rw [analyze_deniedChanges]
    unfold filterDeniedPackages
    rw [if_pos (by rw [hP, hG]; rfl)]

/-- Witness for C4: a change whose URL contains the configured denied-package
string is denied. -/
theorem denied_iff_witness :
    { sampleChange with package_url := "pkg:npm/banned-package@1.0.0" } ∈
      (analyze (constLib true)
        { sampleConfig with packages := { deny := some ["banned-package"] } }
        [{ sampleChange with package_url := "pkg:npm/banned-package@1.0.0" }]).deniedChanges :=
  (denied_iff (constLib true)
    { sampleConfig with packages := { deny := some ["banned-package"] } }
    [{ sampleChange with package_url := "pkg:npm/banned-package@1.0.0" }]
    { sampleChange with package_url := "pkg:npm/banned-package@1.0.0" }
    (by simp) rfl).1.mpr
    (Or.inl ⟨["banned-package"], rfl, "banned-package", by simp, by decide⟩)

/-- C8: for every change list and every pair of configs identical except that
the second's minimum severity threshold is ordinally higher, the
vulnerability-flagged set under the second config is a subset of the set
under the first. -/
theorem raising_threshold_shrinks (lib : SpdxLib) (cfg : Config)
    (changes : List DependencyChange) (s2 : Severity)
    (h : severityOrder cfg.failOnSeverity < severityOrder s2) :
    (analyze lib { cfg with failOnSeverity := s2 } changes).vulnerableChanges ⊆
      (analyze lib cfg changes).vulnerableChanges := by
  rw [analyze_vulnerableChanges, analyze_vulnerableChanges]
  have hvc : ({ cfg with failOnSeverity := s2 } : Config).vulnerabilityCheck
      = cfg.vulnerabilityCheck := rfl
  rw [hvc]
  cases hv : cfg.vulnerabilityCheck
  · rw [if_neg (by simp), if_neg (by simp)]
    exact fun a ha => ha
  · rw [if_pos rfl, if_pos rfl]
    exact filterVulnerable_subset cfg s2 changes (Nat.le_of_lt h)

/-- Witness for C8: raising the threshold from `low` to `critical` keeps the
flagged set (here: of a single high-severity change) a subset of the original;
the high-severity change is flagged at `low` but the subset's target is
checked at a concrete member. -/
theorem raising_threshold_shrinks_witness :
    severityOrder sampleConfig.failOnSeverity < severityOrder Severity.critical ∧
    (analyze (constLib true) { sampleConfig with failOnSeverity := Severity.critical }
        [{ sampleChange with vulnerabilities := [sampleVuln] }]).vulnerableChanges ⊆
      (analyze (constLib true) sampleConfig
        [{ sampleChange with vulnerabilities := [sampleVuln] }]).vulnerableChanges :=
  ⟨by decide,
    raising_threshold_shrinks (constLib true) sampleConfig
      [{ sampleChange with vulnerabilities := [sampleVuln] }]
      Severity.critical (by decide)⟩

/-- A config carrying a license-check exclusion for `pkg:npm/excluded-package`. -/
def exclusionConfig : Config :=
  { sampleConfig with licenseCheckExclusions := some ["pkg:npm/excluded-package"] }

/-- An added change for the excluded package carrying the `NOASSERTION`
    sentinel. -/
def noassertionExcludedChange : DependencyChange :=
  { sampleChange with
      package_url := "pkg:npm/excluded-package@1.0.0"
      license := some "NOASSERTION" }

/-- An added change for the excluded package carrying no license at all. -/
def nullLicenseExcludedChange : DependencyChange :=
  { sampleChange with
      package_url := "pkg:npm/excluded-package@1.0.0"
      license := none }

/-- A config with an `["MIT"]` allow-list and no exclusions. -/
def allowConfig : Config :=
  { sampleConfig with licenses := { allow := some ["MIT"], deny := none } }

/-- An added change carrying an empty-string license. -/
def emptyLicenseChange : DependencyChange :=
  { sampleChange with license := some "" }

/-- C3 counterexample: an added, non-exempt change with the present but empty
license `""` under a non-empty allow-list and a parser that throws on it
(`spdx-expression-parse("")` throws, so `isValid` is false) is classified
unlicensed, not unresolved — refuting the claim's invalid-expression clause
for a present license: the `!change.license` guard fires on the empty string
before any SPDX call. -/
theorem empty_license_not_unresolved :
    allowConfig.licenseCheck = true ∧
    emptyLicenseChange.change_type = .added ∧
    emptyLicenseChange.license = some "" ∧
    (allowConfig.licenseCheckExclusions.isSome
      && isPackageInLicenseExclusions allowConfig
          emptyLicenseChange.package_url) = false ∧
    hasNonEmptyList allowConfig.licenses.allow = true ∧
    isValid failLib "" = false ∧
    (analyze failLib allowConfig
      [emptyLicenseChange]).invalidLicenseChanges.unresolved = [] ∧
    emptyLicenseChange ∈
      (analyze failLib allowConfig
        [emptyLicenseChange]).invalidLicenseChanges.unlicensed := by
  refine ⟨rfl, rfl, rfl, rfl, rfl, rfl, ?_, ?_⟩ <;> decide

/-- C3 (amended): with license checking enabled, for an added, non-exempt
change whose license is present, *non-empty* (the source guard
`!change.license` treats an empty-string license like an absent one and
classifies it unlicensed before any SPDX call) and not `NOASSERTION`: under
a configured non-empty allow-list and a valid license expression, the change
is forbidden iff the expression does not satisfy the `" OR "`-join of the
allow-list (logical OR across the allow-list); under an absent-or-empty
allow-list, a configured non-empty deny-list and a valid expression, the
change is forbidden iff the expression satisfies some license of the
deny-list; and under an invalid expression with an allow- or deny-list
configured, the change is classified unresolved. -/
theorem license_classification (lib : SpdxLib) (cfg : Config)
    (changes : List DependencyChange) (c : DependencyChange) (lic : String)
    (hlc : cfg.licenseCheck = true)
    (hmem : c ∈ changes) (hadd : c.change_type = .added)
    (hlic : c.license = some lic) (hemp : (lic == "") = false)
    (hno : (lic == "NOASSERTION") = false)
    (hnex : (cfg.licenseCheckExclusions.isSome
        && isPackageInLicenseExclusions cfg c.package_url) = false) :
    (∀ allow, cfg.licenses.allow = some allow → allow ≠ [] →
      isValid lib lic = true →
      (c ∈ (analyze lib cfg changes).invalidLicenseChanges.forbidden ↔
        satisfies lib lic (String.intercalate " OR " allow) = false)) ∧
    (hasNonEmptyList cfg.licenses.allow = false →
      ∀ deny, cfg.licenses.deny = some deny → deny ≠ [] →
      isValid lib lic = true →
      (c ∈ (analyze lib cfg changes).invalidLicenseChanges.forbidden ↔
        satisfiesAny lib lic deny = true)) ∧
    (isValid lib lic = false →
      (hasNonEmptyList cfg.licenses.allow = true ∨
        hasNonEmptyList cfg.licenses.deny = true) →
      c ∈ (analyze lib cfg changes).invalidLicenseChanges.unresolved) := by
  have hcl := classify_licensed lib cfg c lic hadd hlic hemp hno hnex
  refine ⟨?_, ?_, ?_⟩
  · intro allow hallow hne hvalid
    rw [analyze_invalidLicenseChanges, hlc, if_pos rfl, mem_forbidden_iff,
      iff_true_intro hmem, true_and, hcl, hallow]
    rw [if_pos (hasNonEmptyList_some allow hne), if_pos hvalid]
    cases hsat : satisfies lib lic (String.intercalate " OR " ((some allow).getD []))
    · rw [if_neg (by simp)]
      simp [Option.getD] at hsat ⊢
      simp [hsat]
    · rw [if_pos rfl]
      simp [Option.getD] at hsat ⊢
      simp [hsat]
  · intro hA deny hdeny hne hvalid
    rw [analyze_invalidLicenseChanges, hlc, if_pos rfl, mem_forbidden_iff,
      iff_true_intro hmem, true_and, hcl]
    rw [if_neg (by rw [hA]; simp), hdeny]
    rw [if_pos (hasNonEmptyList_some deny hne), if_pos hvalid]
    cases hsat : satisfiesAny lib lic ((some deny).getD [])
    · rw [if_neg (by simp)]
      simp [Option.getD] at hsat ⊢
      simp [hsat]
    · rw [if_pos rfl]
      simp [Option.getD] at hsat ⊢
      simp [hsat]
  · intro hinvalid hconf
    rw [analyze_invalidLicenseChanges, hlc, if_pos rfl, mem_unresolved_iff,
      iff_true_intro hmem, true_and, hcl]
    by_cases hA : hasNonEmptyList cfg.licenses.allow = true
    · rw [if_pos hA, if_neg (by rw [hinvalid]; simp)]
    · rcases hconf with hc1 | hc2
      · exact absurd hc1 hA
      · rw [if_neg hA, if_pos hc2, if_neg (by rw [hinvalid]; simp)]

/-- Witness for C3: a `GPL-3.0` change under an `["MIT"]` allow-list with a
satisfaction oracle that always answers `false` is classified forbidden. -/
theorem license_classification_witness :
    { sampleChange with license := some "GPL-3.0" } ∈
      (analyze (constLib false)
        { sampleConfig with licenses := { allow := some ["MIT"], deny := none } }
        [{ sampleChange with license := some "GPL-3.0" }]).invalidLicenseChanges.forbidden :=
  ((license_classification (constLib false)
      { sampleConfig with licenses := { allow := some ["MIT"], deny := none } }
      [{ sampleChange with license := some "GPL-3.0" }]
      { sampleChange with license := some "GPL-3.0" } "GPL-3.0"
      rfl (by simp) rfl rfl (by decide) (by decide) (by decide)).1
    ["MIT"] rfl (by decide) rfl).mpr rfl

set_option maxRecDepth 8192 in
/-- C6 counterexample: an added change carrying the `NOASSERTION` sentinel
whose package matches a configured license-check exclusion is skipped, not
classified unlicensed — refuting "every added change whose license is absent
or `NOASSERTION` is classified unlicensed". -/
theorem noassertion_excluded_not_unlicensed :
    exclusionConfig.licenseCheck = true ∧
    noassertionExcludedChange.change_type = .added ∧
    noassertionExcludedChange.license = some "NOASSERTION" ∧
    (analyze (constLib true) exclusionConfig
      [noassertionExcludedChange]).invalidLicenseChanges.unlicensed = [] := by
  refine ⟨rfl, rfl, rfl, ?_⟩
  decide

/-- C6 (amended): with license checking enabled, an added change whose
license is absent is always classified unlicensed, regardless of
configuration; an added change carrying the `NOASSERTION` sentinel is
classified unlicensed provided it does not match a configured license-check
exclusion (the exclusion check precedes the `NOASSERTION` check), regardless
of the configured allow/deny license lists. -/
theorem unlicensed_classification (lib : SpdxLib) (cfg : Config)
    (changes : List DependencyChange) (c : DependencyChange)
    (hlc : cfg.licenseCheck = true) (hmem : c ∈ changes)
    (hadd : c.change_type = .added) :
    (c.license = none →
      c ∈ (analyze lib cfg changes).invalidLicenseChanges.unlicensed) ∧
    (c.license = some "NOASSERTION" →
      (cfg.licenseCheckExclusions.isSome
        && isPackageInLicenseExclusions cfg c.package_url) = false →
      c ∈ (analyze lib cfg changes).invalidLicenseChanges.unlicensed) := by
  constructor
  · intro hnone
    rw [analyze_invalidLicenseChanges, hlc, if_pos rfl, mem_unlicensed_iff]
    exact ⟨hmem, classify_no_license lib cfg c hadd hnone⟩
  · intro hlic hnex
    rw [analyze_invalidLicenseChanges, hlc, if_pos rfl, mem_unlicensed_iff]
    exact ⟨hmem, classify_noassertion lib cfg c hadd hlic hnex⟩

/-- Witness for C6 (amended): a license-less change is classified unlicensed
under the sample config. -/
theorem unlicensed_classification_witness :
    sampleConfig.licenseCheck = true ∧
    { sampleChange with license := none } ∈
      (analyze (constLib true) sampleConfig
        [{ sampleChange with license := none }]).invalidLicenseChanges.unlicensed :=
  ⟨rfl,
    (unlicensed_classification (constLib true) sampleConfig
      [{ sampleChange with license := none }]
      { sampleChange with license := none } rfl (by simp) rfl).1 rfl⟩

set_option maxRecDepth 8192 in
/-- C7 counterexample: an added change matching a configured license-check
exclusion but carrying no license is still classified unlicensed (the
absent-license check precedes the exclusion check) — refuting "every
exempted change contributes to none of the three license categories". -/
theorem excluded_null_license_still_unlicensed :
    exclusionConfig.licenseCheck = true ∧
    nullLicenseExcludedChange.change_type = .added ∧
    isPackageInLicenseExclusions exclusionConfig
      nullLicenseExcludedChange.package_url = true ∧
    nullLicenseExcludedChange ∈
      (analyze (constLib true) exclusionConfig
        [nullLicenseExcludedChange]).invalidLicenseChanges.unlicensed := by
  refine ⟨rfl, rfl, by decide, by decide⟩

/-- C7 (amended): with license checking enabled, a change matching a
configured license-check exclusion whose license is *present and non-empty*
(JS-truthy) is skipped entirely and contributes to none of the three license
categories; an exempted added change whose license is absent or the empty
string is nevertheless classified unlicensed, because the source's
`!change.license` guard fires before the exclusions are tested. -/
theorem exclusions_skip (lib : SpdxLib) (cfg : Config)
    (changes : List DependencyChange) (c : DependencyChange)
    (hlc : cfg.licenseCheck = true)
    (hex : (cfg.licenseCheckExclusions.isSome
        && isPackageInLicenseExclusions cfg c.package_url) = true) :
    ((∃ lic, c.license = some lic ∧ (lic == "") = false) →
      c ∉ (analyze lib cfg changes).invalidLicenseChanges.forbidden ∧
      c ∉ (analyze lib cfg changes).invalidLicenseChanges.unresolved ∧
      c ∉ (analyze lib cfg changes).invalidLicenseChanges.unlicensed) ∧
    (licenseFalsy c.license = true → c.change_type = .added → c ∈ changes →
      c ∈ (analyze lib cfg changes).invalidLicenseChanges.unlicensed) := by
  constructor
  · rintro ⟨lic, hlic, hemp⟩
    have hskip := classify_excluded lib cfg c lic hlic hemp hex
    rw [analyze_invalidLicenseChanges, hlc, if_pos rfl]
    refine ⟨?_, ?_, ?_⟩
    · intro hmem
      rw [mem_forbidden_iff, hskip] at hmem
      exact absurd hmem.2 (by simp)
    · intro hmem
      rw [mem_unresolved_iff, hskip] at hmem
      exact absurd hmem.2 (by simp)
    · intro hmem
      rw [mem_unlicensed_iff, hskip] at hmem
      exact absurd hmem.2 (by simp)
  · intro hfalsy hadd hmem
    rw [analyze_invalidLicenseChanges, hlc, if_pos rfl, mem_unlicensed_iff]
    exact ⟨hmem, classify_falsy_license lib cfg c hadd hfalsy⟩

/-- Witness for C7 (amended): the excluded package with a `GPL-3.0` license
is in no license bucket even under an `["MIT"]` allow-list. -/
theorem exclusions_skip_witness :
    { noassertionExcludedChange with license := some "GPL-3.0" } ∉
      (analyze (constLib false)
        { exclusionConfig with licenses := { allow := some ["MIT"], deny := none } }
        [{ noassertionExcludedChange with license := some "GPL-3.0" }]
        ).invalidLicenseChanges.forbidden :=
  ((exclusions_skip (constLib false)
      { exclusionConfig with licenses := { allow := some ["MIT"], deny := none } }
      [{ noassertionExcludedChange with license := some "GPL-3.0" }]
      { noassertionExcludedChange with license := some "GPL-3.0" }
      rfl (by decide)).1 ⟨"GPL-3.0", rfl, by decide⟩).1

set_option maxRecDepth 8192 in
/-- C9: `isValid` is total and answers `true` exactly when the underlying
parser succeeds (any thrown parse failure yields `false`); each of
`satisfies`, `satisfiesAny` and `satisfiesAll` consults the underlying
satisfaction logic on the candidate with every standalone `OTHER` token
rewritten to the placeholder `LicenseRef-clearlydefined-OTHER`, and answers
`true` exactly when that logic returns `true` — in particular any thrown
internal error is swallowed and yields `false`.  The final conjuncts
evaluate the rewrite itself: a standalone `OTHER` is replaced, and an
`OTHER` embedded in a larger word is left alone. -/
theorem spdx_wrappers_total (lib : SpdxLib) (e r : String) (ls : List String) :
    (isValid lib e = true ↔ lib.parseSpdx e = .ok ()) ∧
    (satisfies lib e r = true ↔
      lib.satisfiesSpdx (cleanInvalidSPDX e) r = .ok true) ∧
    (satisfiesAny lib e ls = true ↔
      lib.satisfiesAnySpdx (cleanInvalidSPDX e) ls = .ok true) ∧
    (satisfiesAll lib e ls = true ↔
      lib.satisfiesAllSpdx (cleanInvalidSPDX e) ls = .ok true) ∧
    cleanInvalidSPDX "OTHER" = "LicenseRef-clearlydefined-OTHER" ∧
    cleanInvalidSPDX "MIT OR OTHER" = "MIT OR LicenseRef-clearlydefined-OTHER" ∧
    cleanInvalidSPDX "OTHERWISE" = "OTHERWISE" := by
  refine ⟨?_, ?_, ?_, ?_, by decide, by decide, by decide⟩
  · unfold isValid
    cases h : lib.parseSpdx e with
    | ok u => cases u; simp
    | error msg => simp
  · unfold satisfies
    cases h : lib.satisfiesSpdx (cleanInvalidSPDX e) r with
    | ok b => cases b <;> simp
    | error msg => simp
  · unfold satisfiesAny
    cases h : lib.satisfiesAnySpdx (cleanInvalidSPDX e) ls with
    | ok b => cases b <;> simp
    | error msg => simp
  · unfold satisfiesAll
    cases h : lib.satisfiesAllSpdx (cleanInvalidSPDX e) ls with
    | ok b => cases b <;> simp
    | error msg => simp

end DepReview
